import Mathlib

/-!
Shallow embedding of `src/weather.py` (a small MCP weather adapter exposing
two tools, `get_alerts` and `get_forecast`).

JSON bodies delivered by the HTTP layer are modelled by the inductive type
`Json` (objects as association lists with string keys, numbers as exact
rationals).  Python operations that can raise are embedded as functions into
`Except String _`, the error string naming the Python exception class.
The local-time conversion `datetime.fromtimestamp(..).strftime(..)` (a fixed
reference time zone) is abstracted as a parameter `fmtTime : ℚ → String`;
nothing in the claims depends on its internals.
-/

namespace WeatherMCP

/-- JSON values as returned by `response.json()`: object keys are strings,
numbers are modelled as exact rationals. -/
inductive Json where
  | null : Json
  | bool : Bool → Json
  | num : ℚ → Json
  | str : String → Json
  | arr : List Json → Json
  | obj : List (String × Json) → Json

/-- Python truthiness (`bool(x)`) of a decoded JSON value. -/
def Json.truthy : Json → Bool
  | .null => false
  | .bool b => b
  | .num q => if q = 0 then false else true
  | .str s => if s = "" then false else true
  | .arr xs => !xs.isEmpty
  | .obj kvs => !kvs.isEmpty

/-- Python `x == s` for a decoded JSON value `x` and string literal `s`
(cross-type equality is `False` in Python). -/
def Json.eqStr : Json → String → Bool
  | .str t, s => t == s
  | _, _ => false

/-- Python subscription `x[k]` with a string key: `KeyError` on a dict
missing the key, `TypeError` on lists/strings/numbers. -/
def getItem (j : Json) (k : String) : Except String Json :=
  match j with
  | .obj kvs =>
    match kvs.lookup k with
    | some v => .ok v
    | none => .error "KeyError"
  | _ => .error "TypeError"

/-- Python `x.get(k, d)`: only dicts have `.get`; anything else raises
`AttributeError`. -/
def pyGet (j : Json) (k : String) (d : Json) : Except String Json :=
  match j with
  | .obj kvs => .ok ((kvs.lookup k).getD d)
  | _ => .error "AttributeError"

/-- Python `k in x` for a string `k`: key membership for dicts, element
membership for lists, substring test for strings, `TypeError` otherwise. -/
def pyContains (j : Json) (k : String) : Except String Bool :=
  match j with
  | .obj kvs => .ok (kvs.lookup k).isSome
  | .arr xs => .ok (xs.any (fun e => e.eqStr k))
  | .str s => .ok (decide (2 ≤ (s.splitOn k).length))
  | _ => .error "TypeError"

/-- Python iteration `for x in j`: lists yield elements, dicts their keys,
strings their characters; other values raise `TypeError`. -/
def pyIter : Json → Except String (List Json)
  | .arr xs => .ok xs
  | .obj kvs => .ok (kvs.map (fun kv => Json.str kv.1))
  | .str s => .ok (s.toList.map (fun c => Json.str (String.mk [c])))
  | _ => .error "TypeError"

/-- Python slicing `j[:5]` of a truthy value: lists and strings are
sliceable, dicts and numbers raise `TypeError`. -/
def pySlice5 : Json → Except String (List Json)
  | .arr xs => .ok (xs.take 5)
  | .str s => .ok ((s.toList.take 5).map (fun c => Json.str (String.mk [c])))
  | _ => .error "TypeError"

/-- Python subscription `x[0]`: head of a list (`IndexError` when empty),
first character of a string, `KeyError` on dicts (decoded JSON dicts have
only string keys), `TypeError` otherwise. -/
def index0 : Json → Except String Json
  | .arr (x :: _) => .ok x
  | .arr [] => .error "IndexError"
  | .str s =>
    match s.toList with
    | c :: _ => .ok (.str (String.mk [c]))
    | [] => .error "IndexError"
  | .obj _ => .error "KeyError"
  | _ => .error "TypeError"

/-- Exact rational printing used where Python would stringify a JSON
number (Python float formatting is not modelled bit-for-bit; no claim
inspects a stringified number). -/
def ratStr (q : ℚ) : String :=
  if q.den = 1 then toString q.num else toString q.num ++ "/" ++ toString q.den

mutual

/-- Model of Python `repr` on decoded JSON values. -/
def pyRepr : Json → String
  | .null => "None"
  | .bool true => "True"
  | .bool false => "False"
  | .num q => ratStr q
  | .str s => "\x27" ++ s ++ "\x27"
  | .arr xs => "[" ++ pyReprArr xs ++ "]"
  | .obj kvs => "\x7b" ++ pyReprObj kvs ++ "\x7d"

/-- Comma-separated `repr` of list elements. -/
def pyReprArr : List Json → String
  | [] => ""
  | [x] => pyRepr x
  | x :: y :: xs => pyRepr x ++ ", " ++ pyReprArr (y :: xs)

/-- Comma-separated `repr` of dict entries. -/
def pyReprObj : List (String × Json) → String
  | [] => ""
  | [kv] => "\x27" ++ kv.1 ++ "\x27: " ++ pyRepr kv.2
  | kv :: kv2 :: kvs => "\x27" ++ kv.1 ++ "\x27: " ++ pyRepr kv.2 ++ ", " ++ pyReprObj (kv2 :: kvs)

end

/-- Model of Python `str()` as used by f-string interpolation. -/
def pyStr (j : Json) : String :=
  match j with
  | .str s => s
  | _ => pyRepr j

/-- Numeric coercion used by Python arithmetic: JSON numbers are numbers,
booleans coerce (`True` = 1, `False` = 0), everything else is a
`TypeError`. -/
def asNum? : Json → Option ℚ
  | .num q => some q
  | .bool true => some 1
  | .bool false => some 0
  | _ => none

/-- Python `int()` on a real value: truncation toward zero. -/
def pyTrunc (q : ℚ) : ℤ :=
  if 0 ≤ q then ⌊q⌋ else ⌈q⌉

/-- Python `str.title()`: uppercase a letter starting a run of letters,
lowercase the other letters (weather.py line 122). -/
def pyTitleAux : Bool → List Char → List Char
  | _, [] => []
  | prevAlpha, c :: cs =>
    (if c.isAlpha then (if prevAlpha then c.toLower else c.toUpper) else c)
      :: pyTitleAux c.isAlpha cs

/-- Python `s.title()`. -/
def pyTitle (s : String) : String :=
  String.mk (pyTitleAux false s.toList)

/-- From weather.py line 15. -/
def NWS_API_BASE : String := "https://api.weather.gov"

/-- From weather.py line 16. -/
def OPENWEATHER_API_BASE : String := "https://api.openweathermap.org/data/2.5"

/-- From weather.py lines 127-128: the 16-point compass rose. -/
def directions : List String :=
  ["N", "NNE", "NE", "ENE", "E", "ESE", "SE", "SSE",
   "S", "SSW", "SW", "WSW", "W", "WNW", "NW", "NNW"]

/-- From weather.py line 129:
`directions[int((wind_deg + 11.25) / 22.5) % 16] if wind_deg else "N/A"`.
The degree value is a decoded JSON value; a truthy non-numeric value makes
the arithmetic raise `TypeError`.  The float constants 11.25 and 22.5 are
exact binary floats and the quotient is never an integer at an integer
degree, so exact rational arithmetic agrees with the Python evaluation. -/
def wind_direction_of (wind_deg : Json) : Except String String :=
  if wind_deg.truthy = false then .ok "N/A"
  else
    match asNum? wind_deg with
    | none => .error "TypeError"
    | some q => .ok (directions.getD ((pyTrunc ((q + 45 / 4) / (45 / 2)) % 16).toNat) "")

/-- The f-string of weather.py lines 50-56 (body of `format_alert`),
with the five interpolated values already stringified. -/
def alertBlock (ev ar sv ds ins : String) : String :=
  "\nEvent: " ++ ev ++ "\nArea: " ++ ar ++ "\nSeverity: " ++ sv ++
    "\nDescription: " ++ ds ++ "\nInstructions: " ++ ins ++ "\n"

/-- From weather.py lines 47-56: `format_alert`.  `feature["properties"]` can
raise `KeyError`/`TypeError`; the five fields fall back to fixed
placeholders via `dict.get`. -/
def format_alert (feature : Json) : Except String String :=
  match getItem feature "properties" with
  | .error e => .error e
  | .ok props =>
    match pyGet props "event" (.str "Unknown") with
    | .error e => .error e
    | .ok ev =>
      match pyGet props "areaDesc" (.str "Unknown") with
      | .error e => .error e
      | .ok ar =>
        match pyGet props "severity" (.str "Unknown") with
        | .error e => .error e
        | .ok sv =>
          match pyGet props "description" (.str "No description available") with
          | .error e => .error e
          | .ok ds =>
            match pyGet props "instruction" (.str "No specific instructions provided") with
            | .error e => .error e
            | .ok ins => .ok (alertBlock (pyStr ev) (pyStr ar) (pyStr sv) (pyStr ds) (pyStr ins))

/-- The Python list comprehension / loop body collapsed over `Except`:
first exception aborts, otherwise all results are collected in order. -/
def mapExcept (g : α → Except String β) : List α → Except String (List β)
  | [] => .ok []
  | x :: xs =>
    match g x with
    | .error e => .error e
    | .ok y =>
      match mapExcept g xs with
      | .error e => .error e
      | .ok ys => .ok (y :: ys)

/-- From weather.py line 65: the alerts endpoint URL. -/
def alerts_url (state : String) : String :=
  NWS_API_BASE ++ "/alerts/active/area/" ++ state

/-- From weather.py lines 66-75: the body of `get_alerts` applied to the result
of `make_nws_request` (`none` models the collapsed fetch failure). -/
def alerts_of_data (data : Option Json) : Except String String :=
  match data with
  | none => .ok "Unable to fetch alerts or no alerts found."
  | some d =>
    if d.truthy = false then .ok "Unable to fetch alerts or no alerts found."
    else
      match pyContains d "features" with
      | .error e => .error e
      | .ok false => .ok "Unable to fetch alerts or no alerts found."
      | .ok true =>
        match getItem d "features" with
        | .error e => .error e
        | .ok feats =>
          if feats.truthy = false then .ok "No active alerts for this state."
          else
            match pyIter feats with
            | .error e => .error e
            | .ok items =>
              match mapExcept format_alert items with
              | .error e => .error e
              | .ok alerts => .ok (String.intercalate "\n---\n" alerts)

/-- From weather.py lines 58-75: `get_alerts`.  The HTTP layer is the function
argument `fetch`, mapping a URL to the decoded body (or `none` on any
transport failure, per `make_nws_request`). -/
def get_alerts (state : String) (fetch : String → Option Json) : Except String String :=
  alerts_of_data (fetch (alerts_url state))

/-- From weather.py line 87: the fixed instructional error string. -/
def noKeyMsg : String :=
  "Error: OPENWEATHER_API_KEY not found in .env file. Please add it to your .env file."

/-- From weather.py line 90: the forecast endpoint URL. -/
def forecast_url (lat lon : ℚ) (key : String) : String :=
  OPENWEATHER_API_BASE ++ "/forecast?lat=" ++ ratStr lat ++ "&lon=" ++ ratStr lon ++
    "&appid=" ++ key ++ "&units=metric"

/-- From weather.py line 109: `"=" * 50`. -/
def sep50 : String := String.mk (List.replicate 50 '=')

/-- From weather.py lines 105-107: the header line built from the `city`
values. -/
def mkLocation (cname country : Json) : String :=
  "Forecast for " ++ pyStr cname ++ (if country.truthy then ", " ++ pyStr country else "")

/-- The f-string of weather.py lines 131-137, with the interpolated values
already stringified. -/
def periodBlock (timeStr temp feels desc hum speed wdir : String) : String :=
  "\n" ++ timeStr ++ ":\nTemperature: " ++ temp ++ "°C (feels like " ++ feels ++
    "°C)\nWeather: " ++ desc ++ "\nHumidity: " ++ hum ++ "%\nWind: " ++ speed ++
    " m/s " ++ wdir ++ "\n"

/-- From weather.py lines 117-138: the body of the per-period loop.  `fmtTime`
abstracts `datetime.fromtimestamp(..).strftime('%A, %B %d at %I:%M %p')`
in the fixed reference time zone. -/
def renderPeriod (fmtTime : ℚ → String) (period : Json) : Except String String :=
  match getItem period "dt" with
  | .error e => .error e
  | .ok dtv =>
    match asNum? dtv with
    | none => .error "TypeError"
    | some dtq =>
      match getItem period "main" with
      | .error e => .error e
      | .ok mainv =>
        match getItem mainv "temp" with
        | .error e => .error e
        | .ok temp =>
          match getItem mainv "feels_like" with
          | .error e => .error e
          | .ok feels =>
            match getItem mainv "humidity" with
            | .error e => .error e
            | .ok hum =>
              match getItem period "weather" with
              | .error e => .error e
              | .ok wv =>
                match index0 wv with
                | .error e => .error e
                | .ok w0 =>
                  match getItem w0 "description" with
                  | .error e => .error e
                  | .ok descv =>
                    match descv with
                    | .str descs =>
                      match pyGet period "wind" (.obj []) with
                      | .error e => .error e
                      | .ok wind =>
                        match pyGet wind "speed" (.num 0) with
                        | .error e => .error e
                        | .ok speed =>
                          match pyGet wind "deg" (.num 0) with
                          | .error e => .error e
                          | .ok deg =>
                            match wind_direction_of deg with
                            | .error e => .error e
                            | .ok wdir =>
                              .ok (periodBlock (fmtTime dtq) (pyStr temp) (pyStr feels)
                                (pyTitle descs) (pyStr hum) (pyStr speed) wdir)
                    | _ => .error "AttributeError"

/-- From weather.py lines 101-140: header construction and the five-period
rendering loop. -/
def forecast_render (fmtTime : ℚ → String) (fd : Json) : Except String String :=
  match pyGet fd "city" (.obj []) with
  | .error e => .error e
  | .ok city =>
    match pyGet city "name" (.str "Unknown") with
    | .error e => .error e
    | .ok cname =>
      match pyGet city "country" (.str "") with
      | .error e => .error e
      | .ok country =>
        match pyGet fd "list" (.arr []) with
        | .error e => .error e
        | .ok periods =>
          if periods.truthy = false then .ok "No forecast data available."
          else
            match pySlice5 periods with
            | .error e => .error e
            | .ok ps =>
              match mapExcept (renderPeriod fmtTime) ps with
              | .error e => .error e
              | .ok blocks =>
                .ok (String.intercalate "\n" (mkLocation cname country :: sep50 :: blocks))

/-- From weather.py lines 93-98 and 100-140: the body of `get_forecast` applied
to the fetched body, from the `if not forecast_data` test onward. -/
def forecast_body (fmtTime : ℚ → String) (fd : Json) : Except String String :=
  if fd.truthy = false then .ok "Unable to fetch forecast data for this location."
  else
    match pyContains fd "cod" with
    | .error e => .error e
    | .ok hasCod =>
      if hasCod then
        match getItem fd "cod" with
        | .error e => .error e
        | .ok codv =>
          if codv.eqStr "200" then forecast_render fmtTime fd
          else
            match pyGet fd "message" (.str "Unknown error") with
            | .error e => .error e
            | .ok msg => .ok ("Unable to fetch forecast: " ++ pyStr msg)
      else forecast_render fmtTime fd

/-- From weather.py lines 77-140: `get_forecast`.  The configured API key is
`none` when absent; `fetch` is the HTTP layer (`make_openweather_request`).
The second component counts outbound network calls. -/
def get_forecast (apiKey : Option String) (fetch : String → Option Json)
    (fmtTime : ℚ → String) (lat lon : ℚ) : Except String String × Nat :=
  match apiKey with
  | none => (.ok noKeyMsg, 0)
  | some k =>
    if k = "" then (.ok noKeyMsg, 0)
    else
      match fetch (forecast_url lat lon k) with
      | none => (.ok "Unable to fetch forecast data for this location.", 1)
      | some fd => (forecast_body fmtTime fd, 1)

/-! ### Well-formedness predicates

Sufficient, decidable conditions on fetched bodies under which the
dynamic field accesses of the two tools cannot raise. -/

/-- An alert feature that `format_alert` can process: an object whose
`properties` value is an object. -/
def featureOK : Json → Bool
  | .obj kvs =>
    match kvs.lookup "properties" with
    | some (.obj _) => true
    | _ => false
  | _ => false

/-- Alert bodies on which `get_alerts` cannot raise. -/
def alertsBodyOK : Option Json → Bool
  | none => true
  | some (.obj kvs) =>
    match kvs.lookup "features" with
    | none => true
    | some (.arr fs) => fs.all featureOK
    | some _ => false
  | some j => !j.truthy

/-- A forecast period that the rendering loop can process. -/
def periodOK : Json → Bool
  | .obj kvs =>
    (match kvs.lookup "dt" with
     | some v => (asNum? v).isSome
     | none => false) &&
    (match kvs.lookup "main" with
     | some (.obj m) =>
       (match m.lookup "temp", m.lookup "feels_like", m.lookup "humidity" with
        | some _, some _, some _ => true
        | _, _, _ => false)
     | _ => false) &&
    (match kvs.lookup "weather" with
     | some (.arr (.obj w :: _)) =>
       match w.lookup "description" with
       | some (.str _) => true
       | _ => false
     | _ => false) &&
    (match kvs.lookup "wind" with
     | none => true
     | some (.obj w) =>
       match w.lookup "deg" with
       | none => true
       | some d => (asNum? d).isSome || !d.truthy
     | some _ => false)
  | _ => false

/-- Forecast bodies on which `forecast_body` cannot raise. -/
def forecastJsonOK : Json → Bool
  | .obj kvs =>
    (match kvs.lookup "city" with
     | none => true
     | some (.obj _) => true
     | some _ => false) &&
    (match kvs.lookup "list" with
     | none => true
     | some (.arr ps) => (ps.take 5).all periodOK
     | some v => !v.truthy)
  | j => !j.truthy

/-- Forecast fetch results on which `get_forecast` cannot raise. -/
def forecastBodyOK : Option Json → Bool
  | none => true
  | some j => forecastJsonOK j

/-! ### Helper lemmas -/

theorem lookup_ne_nil {kvs : List (String × Json)} {k : String} {v : Json}
    (h : kvs.lookup k = some v) : kvs ≠ [] := by
  intro hk
  subst hk
  simp [List.lookup] at h

theorem truthy_obj {kvs : List (String × Json)} (h : kvs ≠ []) :
    (Json.obj kvs).truthy = true := by
  cases kvs with
  | nil => exact absurd rfl h
  | cons a l => simp [Json.truthy]

theorem format_alert_isOk {f : Json} (h : featureOK f = true) :
    (format_alert f).isOk = true := by
  cases f with
  | obj kvs =>
    rw [featureOK] at h
    rcases hp : kvs.lookup "properties" with _ | v
    · rw [hp] at h
      simp at h
    · rcases v with _ | b | q | s | xs | pkvs <;> rw [hp] at h <;> try simp at h
      simp [format_alert, getItem, hp, pyGet, Except.isOk, Except.toBool]
  | null => simp [featureOK] at h
  | bool b => simp [featureOK] at h
  | num q => simp [featureOK] at h
  | str s => simp [featureOK] at h
  | arr xs => simp [featureOK] at h

theorem mapExcept_ok_map {g : α → Except String β} {h : α → β} {xs : List α}
    (H : ∀ x ∈ xs, g x = .ok (h x)) : mapExcept g xs = .ok (xs.map h) := by
  induction xs with
  | nil => simp [mapExcept]
  | cons x l ih =>
    have hx := H x (by simp)
    have hl : mapExcept g l = .ok (l.map h) := ih (fun y hy => H y (by simp [hy]))
    simp [mapExcept, hx, hl]

theorem mapExcept_isOk {g : α → Except String β} {xs : List α}
    (H : ∀ x ∈ xs, (g x).isOk = true) : (mapExcept g xs).isOk = true := by
  induction xs with
  | nil => simp [mapExcept, Except.isOk, Except.toBool]
  | cons x l ih =>
    have hx := H x (by simp)
    rcases hgx : g x with e | y
    · rw [hgx] at hx
      simp [Except.isOk, Except.toBool] at hx
    · have hl := ih (fun y hy => H y (by simp [hy]))
      rcases hml : mapExcept g l with e | ys
      · rw [hml] at hl
        simp [Except.isOk, Except.toBool] at hl
      · simp [mapExcept, hgx, hml, Except.isOk, Except.toBool]

theorem mapExcept_length {g : α → Except String β} {xs : List α} {ys : List β}
    (h : mapExcept g xs = .ok ys) : ys.length = xs.length := by
  induction xs generalizing ys with
  | nil =>
    rw [mapExcept] at h
    cases h
    rfl
  | cons x l ih =>
    rw [mapExcept] at h
    rcases hgx : g x with e | y <;> rw [hgx] at h
    · cases h
    · rcases hml : mapExcept g l with e | zs <;> rw [hml] at h
      · cases h
      · cases h
        simp [ih hml]

theorem wind_direction_isOk {d : Json} (h : ((asNum? d).isSome || !d.truthy) = true) :
    (wind_direction_of d).isOk = true := by
  rcases hb : d.truthy with _ | _
  · simp [wind_direction_of, hb, Except.isOk, Except.toBool]
  · rw [hb] at h
    simp only [Bool.not_true, Bool.or_false] at h
    obtain ⟨q, hq⟩ := Option.isSome_iff_exists.mp h
    simp [wind_direction_of, hb, hq, Except.isOk, Except.toBool]

theorem renderPeriod_isOk (t : ℚ → String) {p : Json} (h : periodOK p = true) :
    (renderPeriod t p).isOk = true := by
  cases p with
  | obj kvs =>
    rw [periodOK] at h
    simp only [Bool.and_eq_true] at h
    obtain ⟨⟨⟨hdt, hmain⟩, hw⟩, hwind⟩ := h
    rcases hdtl : kvs.lookup "dt" with _ | dtv <;> rw [hdtl] at hdt
    · exact Bool.noConfusion hdt
    replace hdt : (asNum? dtv).isSome = true := hdt
    obtain ⟨dtq, hnum⟩ := Option.isSome_iff_exists.mp hdt
    rcases hml : kvs.lookup "main" with _ | mv <;> rw [hml] at hmain
    · exact Bool.noConfusion hmain
    rcases mv with _ | b | q | s | xs | m
    · exact Bool.noConfusion hmain
    · exact Bool.noConfusion hmain
    · exact Bool.noConfusion hmain
    · exact Bool.noConfusion hmain
    · exact Bool.noConfusion hmain
    replace hmain :
        (match m.lookup "temp", m.lookup "feels_like", m.lookup "humidity" with
         | some _, some _, some _ => true
         | _, _, _ => false) = true := hmain
    rcases htv : m.lookup "temp" with _ | tv <;> rw [htv] at hmain
    · exact Bool.noConfusion hmain
    rcases hfv : m.lookup "feels_like" with _ | fv <;> rw [hfv] at hmain
    · exact Bool.noConfusion hmain
    rcases hhv : m.lookup "humidity" with _ | hv <;> rw [hhv] at hmain
    · exact Bool.noConfusion hmain
    rcases hwl : kvs.lookup "weather" with _ | wv <;> rw [hwl] at hw
    · exact Bool.noConfusion hw
    rcases wv with _ | b | q | s | ws | o
    · exact Bool.noConfusion hw
    · exact Bool.noConfusion hw
    · exact Bool.noConfusion hw
    · exact Bool.noConfusion hw
    case obj => exact Bool.noConfusion hw
    rcases ws with _ | ⟨w0, wrest⟩
    · exact Bool.noConfusion hw
    rcases w0 with _ | b | q | s | xs | w
    · exact Bool.noConfusion hw
    · exact Bool.noConfusion hw
    · exact Bool.noConfusion hw
    · exact Bool.noConfusion hw
    · exact Bool.noConfusion hw
    replace hw :
        (match w.lookup "description" with
         | some (.str _) => true
         | _ => false) = true := hw
    rcases hds : w.lookup "description" with _ | dv <;> rw [hds] at hw
    · exact Bool.noConfusion hw
    rcases dv with _ | b | q | ds | xs | o
    · exact Bool.noConfusion hw
    · exact Bool.noConfusion hw
    · exact Bool.noConfusion hw
    case arr => exact Bool.noConfusion hw
    case obj => exact Bool.noConfusion hw
    rcases hwindl : kvs.lookup "wind" with _ | windv <;> rw [hwindl] at hwind
    · simp [renderPeriod, getItem, hdtl, hnum, hml, htv, hfv, hhv, hwl,
        index0, hds, pyGet, hwindl, wind_direction_of, Json.truthy,
        Except.isOk, Except.toBool]
    rcases windv with _ | b | q | s | xs | w2
    · exact Bool.noConfusion hwind
    · exact Bool.noConfusion hwind
    · exact Bool.noConfusion hwind
    · exact Bool.noConfusion hwind
    · exact Bool.noConfusion hwind
    replace hwind :
        (match w2.lookup "deg" with
         | none => true
         | some d => (asNum? d).isSome || !d.truthy) = true := hwind
    rcases hdg : w2.lookup "deg" with _ | dg <;> rw [hdg] at hwind
    · simp [renderPeriod, getItem, hdtl, hnum, hml, htv, hfv, hhv, hwl,
        index0, hds, pyGet, hwindl, hdg, wind_direction_of, Json.truthy,
        Except.isOk, Except.toBool]
    replace hwind : ((asNum? dg).isSome || !dg.truthy) = true := hwind
    have hwd := wind_direction_isOk hwind
    rcases hwde : wind_direction_of dg with e | wdir
    · rw [hwde] at hwd
      exact Bool.noConfusion hwd
    simp [renderPeriod, getItem, hdtl, hnum, hml, htv, hfv, hhv, hwl,
      index0, hds, pyGet, hwindl, hdg, hwde,
      Except.isOk, Except.toBool]
  | null => simp [periodOK] at h
  | bool b => simp [periodOK] at h
  | num q => simp [periodOK] at h
  | str s => simp [periodOK] at h
  | arr xs => simp [periodOK] at h

theorem alerts_of_data_isOk {d : Option Json} (h : alertsBodyOK d = true) :
    (alerts_of_data d).isOk = true := by
  cases d with
  | none => simp [alerts_of_data, Except.isOk, Except.toBool]
  | some j =>
    cases j with
    | obj kvs =>
      rw [alertsBodyOK] at h
      by_cases hk : kvs = []
      · subst hk
        simp [alerts_of_data, Json.truthy, Except.isOk, Except.toBool]
      have ht := truthy_obj hk
      rcases hf : kvs.lookup "features" with _ | v <;> rw [hf] at h
      · simp [alerts_of_data, ht, pyContains, hf, Except.isOk, Except.toBool]
      rcases v with _ | b | q | s | fs | o
      · exact Bool.noConfusion h
      · exact Bool.noConfusion h
      · exact Bool.noConfusion h
      · exact Bool.noConfusion h
      on_goal 2 => exact Bool.noConfusion h
      replace h : fs.all featureOK = true := h
      have hke : kvs.isEmpty = false := by
        cases kvs with
        | nil => exact absurd rfl hk
        | cons a l => rfl
      by_cases hfs : fs = []
      · subst hfs
        simp [alerts_of_data, ht, pyContains, hf, getItem, Json.truthy, hke,
          Except.isOk, Except.toBool]
      have hmap : (mapExcept format_alert fs).isOk = true :=
        mapExcept_isOk (fun x hx => format_alert_isOk (List.all_eq_true.mp h x hx))
      rcases hme : mapExcept format_alert fs with e | alerts
      · rw [hme] at hmap
        exact Bool.noConfusion hmap
      have htf : (Json.arr fs).truthy = true := by
        cases fs with
        | nil => exact absurd rfl hfs
        | cons a l => simp [Json.truthy]
      simp [alerts_of_data, ht, pyContains, hf, getItem, htf, pyIter, hme,
        Except.isOk, Except.toBool]
    | null =>
      simp [alerts_of_data, alertsBodyOK, Json.truthy, Except.isOk, Except.toBool]
    | bool b =>
      replace h : (!(Json.bool b).truthy) = true := h
      simp only [Bool.not_eq_true'] at h
      simp [alerts_of_data, h, Except.isOk, Except.toBool]
    | num q =>
      replace h : (!(Json.num q).truthy) = true := h
      simp only [Bool.not_eq_true'] at h
      simp [alerts_of_data, h, Except.isOk, Except.toBool]
    | str s =>
      replace h : (!(Json.str s).truthy) = true := h
      simp only [Bool.not_eq_true'] at h
      simp [alerts_of_data, h, Except.isOk, Except.toBool]
    | arr xs =>
      replace h : (!(Json.arr xs).truthy) = true := h
      simp only [Bool.not_eq_true'] at h
      simp [alerts_of_data, h, Except.isOk, Except.toBool]

theorem forecast_render_isOk (t : ℚ → String) {kvs : List (String × Json)}
    (hcity : (match kvs.lookup "city" with
              | none => true
              | some (.obj _) => true
              | some _ => false) = true)
    (hlist : (match kvs.lookup "list" with
              | none => true
              | some (.arr ps) => (ps.take 5).all periodOK
              | some v => !v.truthy) = true) :
    (forecast_render t (Json.obj kvs)).isOk = true := by
  have hcity2 : ∃ ckvs : List (String × Json),
      (kvs.lookup "city").getD (Json.obj []) = Json.obj ckvs := by
    rcases hc : kvs.lookup "city" with _ | cv <;> rw [hc] at hcity
    · exact ⟨[], rfl⟩
    rcases cv with _ | b | q | s | xs | ckvs
    · exact Bool.noConfusion hcity
    · exact Bool.noConfusion hcity
    · exact Bool.noConfusion hcity
    · exact Bool.noConfusion hcity
    · exact Bool.noConfusion hcity
    exact ⟨ckvs, rfl⟩
  obtain ⟨ckvs, hck⟩ := hcity2
  rcases hl : kvs.lookup "list" with _ | lv <;> rw [hl] at hlist
  · simp [forecast_render, hck, pyGet, hl, Json.truthy, Except.isOk, Except.toBool]
  rcases lv with _ | b | q | s | ps | o
  · simp [forecast_render, hck, pyGet, hl, Json.truthy, Except.isOk, Except.toBool]
  · replace hlist : (!(Json.bool b).truthy) = true := hlist
    simp only [Bool.not_eq_true'] at hlist
    simp [forecast_render, hck, pyGet, hl, hlist, Except.isOk, Except.toBool]
  · replace hlist : (!(Json.num q).truthy) = true := hlist
    simp only [Bool.not_eq_true'] at hlist
    simp [forecast_render, hck, pyGet, hl, hlist, Except.isOk, Except.toBool]
  · replace hlist : (!(Json.str s).truthy) = true := hlist
    simp only [Bool.not_eq_true'] at hlist
    simp [forecast_render, hck, pyGet, hl, hlist, Except.isOk, Except.toBool]
  on_goal 2 =>
    replace hlist : (!(Json.obj o).truthy) = true := hlist
    simp only [Bool.not_eq_true'] at hlist
    simp [forecast_render, hck, pyGet, hl, hlist, Except.isOk, Except.toBool]
  replace hlist : (ps.take 5).all periodOK = true := hlist
  by_cases hps : ps = []
  · subst hps
    simp [forecast_render, hck, pyGet, hl, Json.truthy, Except.isOk, Except.toBool]
  have htp : (Json.arr ps).truthy = true := by
    cases ps with
    | nil => exact absurd rfl hps
    | cons a l => simp [Json.truthy]
  have hmap : (mapExcept (renderPeriod t) (ps.take 5)).isOk = true :=
    mapExcept_isOk (fun x hx => renderPeriod_isOk t (List.all_eq_true.mp hlist x hx))
  rcases hme : mapExcept (renderPeriod t) (ps.take 5) with e | blocks
  · rw [hme] at hmap
    exact Bool.noConfusion hmap
  simp [forecast_render, hck, pyGet, hl, htp, pySlice5, hme,
    Except.isOk, Except.toBool]

theorem forecast_body_isOk (t : ℚ → String) {fd : Json}
    (h : forecastJsonOK fd = true) : (forecast_body t fd).isOk = true := by
  cases fd with
  | obj kvs =>
    rw [forecastJsonOK] at h
    simp only [Bool.and_eq_true] at h
    obtain ⟨hcity, hlist⟩ := h
    by_cases hk : kvs = []
    · subst hk
      simp [forecast_body, Json.truthy, Except.isOk, Except.toBool]
    have ht := truthy_obj hk
    have hrender := forecast_render_isOk t hcity hlist
    rcases hc : kvs.lookup "cod" with _ | cv
    · simp only [forecast_body, ht, Bool.true_eq_false, if_false, pyContains, hc,
        Option.isSome_none, if_neg]
      simpa using hrender
    rcases hre : forecast_render t (Json.obj kvs) with e | r
    · rw [hre] at hrender
      exact Bool.noConfusion hrender
    by_cases h200 : cv.eqStr "200" = true
    · simp [forecast_body, ht, pyContains, hc, getItem, h200, hre,
        Except.isOk, Except.toBool]
    · simp only [Bool.not_eq_true] at h200
      simp [forecast_body, ht, pyContains, hc, getItem, h200, pyGet,
        Except.isOk, Except.toBool]
  | null =>
    simp [forecast_body, forecastJsonOK, Json.truthy, Except.isOk, Except.toBool]
  | bool b =>
    replace h : (!(Json.bool b).truthy) = true := h
    simp only [Bool.not_eq_true'] at h
    simp [forecast_body, h, Except.isOk, Except.toBool]
  | num q =>
    replace h : (!(Json.num q).truthy) = true := h
    simp only [Bool.not_eq_true'] at h
    simp [forecast_body, h, Except.isOk, Except.toBool]
  | str s =>
    replace h : (!(Json.str s).truthy) = true := h
    simp only [Bool.not_eq_true'] at h
    simp [forecast_body, h, Except.isOk, Except.toBool]
  | arr xs =>
    replace h : (!(Json.arr xs).truthy) = true := h
    simp only [Bool.not_eq_true'] at h
    simp [forecast_body, h, Except.isOk, Except.toBool]

theorem wind_dir_eval {q : ℚ} {m : ℤ} (hq : ¬ q = 0) (hm : 0 ≤ m)
    (h1 : (m : ℚ) ≤ (q + 45 / 4) / (45 / 2)) (h2 : (q + 45 / 4) / (45 / 2) < m + 1) :
    wind_direction_of (.num q) = .ok (directions.getD (m % 16).toNat "") := by
  have hfl : ⌊(q + 45 / 4) / (45 / 2)⌋ = m := Int.floor_eq_iff.mpr ⟨h1, h2⟩
  have hpos : 0 ≤ (q + 45 / 4) / (45 / 2) := le_trans (by exact_mod_cast hm) h1
  simp [wind_direction_of, Json.truthy, hq, asNum?, pyTrunc, if_pos hpos, hfl]

/-! ### The claims -/

/-- C3: for a forecast period wind degree value 0 the rendered direction is
"N/A"; for 90 it is "E"; for 11 it is "N" (bucket 0); for 349 it is "N"
(the bucket wraps to 0). -/
theorem C3_wind_direction_examples :
    wind_direction_of (.num 0) = .ok "N/A" ∧
    wind_direction_of (.num 90) = .ok "E" ∧
    wind_direction_of (.num 11) = .ok "N" ∧
    wind_direction_of (.num 349) = .ok "N" := by
  refine ⟨?_, ?_, ?_, ?_⟩
  · simp [wind_direction_of, Json.truthy]
  · exact (@wind_dir_eval 90 4 (by norm_num) (by norm_num) (by norm_num)
      (by norm_num)).trans rfl
  · exact (@wind_dir_eval 11 0 (by norm_num) (by norm_num) (by norm_num)
      (by norm_num)).trans rfl
  · exact (@wind_dir_eval 349 16 (by norm_num) (by norm_num) (by norm_num)
      (by norm_num)).trans rfl

/-- C2 counterexample: at 11 degrees the code renders "N", while the
claimed formula `round((degrees + 11.25) / 22.5) mod 16` selects bucket 1,
i.e. "NNE".  The code truncates (`int(...)`), it does not round. -/
theorem C2_round_formula_counterexample :
    wind_direction_of (.num 11) = .ok "N" ∧
    directions.getD ((round ((11 + 45 / 4) / (45 / 2) : ℚ)) % 16).toNat "" = "NNE" ∧
    ("N" : String) ≠ "NNE" := by
  refine ⟨?_, ?_, by decide⟩
  · exact (@wind_dir_eval 11 0 (by norm_num) (by norm_num) (by norm_num)
      (by norm_num)).trans rfl
  · have hr : round ((11 + 45 / 4) / (45 / 2) : ℚ) = 1 := by
      rw [round_eq]
      apply Int.floor_eq_iff.mpr
      constructor <;> norm_num
    rw [hr]
    decide

/-- C2 (amended): the bucket is computed by truncation, not rounding:
for an integer degree value `n`, the rendered direction is "N/A" when
`n = 0` and otherwise `directions[((4*n + 45) / 90) mod 16]`, i.e.
`bucket = trunc((n + 11.25) / 22.5) mod 16`. -/
theorem C2_trunc_formula (n : ℕ) :
    wind_direction_of (.num n) =
      .ok (if n = 0 then "N/A" else directions.getD ((4 * n + 45) / 90 % 16) "") := by
  by_cases h0 : n = 0
  · subst h0
    simp [wind_direction_of, Json.truthy]
  · have hn : ¬ ((n : ℚ) = 0) := by exact_mod_cast h0
    have hda := Nat.div_add_mod (4 * n + 45) 90
    have hmlt := Nat.mod_lt (4 * n + 45) (show 0 < 90 by norm_num)
    set m : ℕ := (4 * n + 45) / 90 with hmdef
    have hA : 90 * m ≤ 4 * n + 45 := by omega
    have hB : 4 * n + 45 < 90 * (m + 1) := by omega
    have hAq : (90 : ℚ) * m ≤ 4 * (n : ℚ) + 45 := by exact_mod_cast hA
    have hBq : (4 : ℚ) * n + 45 < 90 * ((m : ℚ) + 1) := by exact_mod_cast hB
    have h1 : (((m : ℤ)) : ℚ) ≤ ((n : ℚ) + 45 / 4) / (45 / 2) := by
      rw [le_div_iff₀ (by norm_num : (0 : ℚ) < 45 / 2)]
      push_cast
      linarith
    have h2 : ((n : ℚ) + 45 / 4) / (45 / 2) < ((m : ℤ) : ℚ) + 1 := by
      rw [div_lt_iff₀ (by norm_num : (0 : ℚ) < 45 / 2)]
      push_cast
      linarith
    have heval := @wind_dir_eval (n : ℚ) (m : ℤ) hn (by exact_mod_cast Nat.zero_le m) h1 h2
    rw [heval, if_neg h0]
    have hidx : (((m : ℤ)) % 16).toNat = m % 16 := by omega
    rw [hidx]


theorem mapExcept_map {g : α → Except String γ} {f : β → α} {h : β → γ} {l : List β}
    (H : ∀ x ∈ l, g (f x) = .ok (h x)) : mapExcept g (l.map f) = .ok (l.map h) := by
  induction l with
  | nil => simp [mapExcept]
  | cons x l ih =>
    have hx := H x (by simp)
    have hl := ih (fun y hy => H y (by simp [hy]))
    simp [mapExcept, hx, hl]

theorem alerts_of_data_features {kvs : List (String × Json)} {fs : List Json}
    {alerts : List String}
    (hf : kvs.lookup "features" = some (Json.arr fs)) (hfs : fs ≠ [])
    (hm : mapExcept format_alert fs = .ok alerts) :
    alerts_of_data (some (Json.obj kvs)) = .ok (String.intercalate "\n---\n" alerts) := by
  have ht := truthy_obj (lookup_ne_nil hf)
  have htf : (Json.arr fs).truthy = true := by
    cases fs with
    | nil => exact absurd rfl hfs
    | cons a l => simp [Json.truthy]
  simp [alerts_of_data, ht, pyContains, hf, getItem, htf, pyIter, hm]

/-- C1 counterexample: an alert feature lacking a `properties` key makes
`get_alerts` raise `KeyError` instead of returning a string. -/
theorem C1_exception_counterexample :
    get_alerts "NY" (fun _ => some (Json.obj [("features", Json.arr [Json.obj []])])) =
      .error "KeyError" := rfl

/-- C1 (amended): `get_alerts` and `get_forecast` return a string (raise no
exception) on every fetch result satisfying the well-formedness conditions
`alertsBodyOK` / `forecastBodyOK` (each feature an object with an object
`properties`; each of the first five periods an object with numeric `dt`,
an object `main` holding `temp`/`feels_like`/`humidity`, a `weather` list
headed by an object with a string `description`, and an absent or
object-shaped `wind` whose `deg` is numeric or falsy; `city` absent or an
object).  On malformed bodies an exception can escape. -/
theorem C1_no_exception_amended (st : String) (fa ff : String → Option Json)
    (key : Option String) (t : ℚ → String) (la lo : ℚ)
    (h1 : alertsBodyOK (fa (alerts_url st)) = true)
    (h2 : ∀ u : String, forecastBodyOK (ff u) = true) :
    (get_alerts st fa).isOk = true ∧ (get_forecast key ff t la lo).1.isOk = true := by
  constructor
  · exact alerts_of_data_isOk h1
  · cases key with
    | none => rfl
    | some k =>
      by_cases hk : k = ""
      · subst hk
        rfl
      · have hb := h2 (forecast_url la lo k)
        rcases hf : ff (forecast_url la lo k) with _ | fd
        · simp [get_forecast, hk, hf, Except.isOk, Except.toBool]
        · rw [hf] at hb
          replace hb : forecastJsonOK fd = true := hb
          simp only [get_forecast, hk, hf, if_neg]
          exact forecast_body_isOk t hb

theorem C1_no_exception_witness :
    (get_alerts "CA" (fun _ => none)).isOk = true ∧
    (get_forecast (some "APIKEY") (fun _ => none) (fun _ => "") 0 0).1.isOk = true :=
  C1_no_exception_amended "CA" (fun _ => none) (fun _ => none) (some "APIKEY")
    (fun _ => "") 0 0 rfl (fun _ => rfl)

/-- C4 counterexample: a truthy non-dict body without a `features` key (the
JSON literal `true`) makes `"features" not in data` raise `TypeError`, so
`get_alerts` does not return the excuse string the claim demands. -/
theorem C4_nondict_body_counterexample :
    get_alerts "TX" (fun _ => some (Json.bool true)) = .error "TypeError" ∧
    (Except.error "TypeError" : Except String String) ≠
      .ok "Unable to fetch alerts or no alerts found." := by
  exact ⟨rfl, fun h => Except.noConfusion h⟩

/-- C4 (amended): `get_alerts` returns exactly
"Unable to fetch alerts or no alerts found." when the fetch yields no data,
when the body is falsy, or when the body is an object without a `features`
key (truthy non-object bodies can instead raise); and it returns exactly
"No active alerts for this state." when the body is an object whose
`features` value is the empty list. -/
theorem C4_alerts_fallbacks_amended (st : String) (kvs : List (String × Json)) :
    get_alerts st (fun _ => none) = .ok "Unable to fetch alerts or no alerts found." ∧
    (∀ j : Json, j.truthy = false →
      get_alerts st (fun _ => some j) = .ok "Unable to fetch alerts or no alerts found.") ∧
    (kvs.lookup "features" = none →
      get_alerts st (fun _ => some (Json.obj kvs)) =
        .ok "Unable to fetch alerts or no alerts found.") ∧
    (kvs.lookup "features" = some (Json.arr []) →
      get_alerts st (fun _ => some (Json.obj kvs)) =
        .ok "No active alerts for this state.") := by
  refine ⟨rfl, ?_, ?_, ?_⟩
  · intro j hj
    simp [get_alerts, alerts_of_data, hj]
  · intro h
    by_cases hk : kvs = []
    · subst hk
      rfl
    · have ht := truthy_obj hk
      simp [get_alerts, alerts_of_data, ht, pyContains, h]
  · intro h
    have ht := truthy_obj (lookup_ne_nil h)
    simp [get_alerts, alerts_of_data, ht, pyContains, h, getItem, Json.truthy]
    exact lookup_ne_nil h

theorem C4_alerts_fallbacks_witness :
    get_alerts "CA" (fun _ => some (Json.obj [("features", Json.arr [])])) =
      .ok "No active alerts for this state." :=
  (C4_alerts_fallbacks_amended "CA" [("features", Json.arr [])]).2.2.2 rfl

/-- C5 counterexample: with one feature lacking the `properties` key,
`get_alerts` raises `KeyError` instead of returning a rendered block. -/
theorem C5_missing_properties_counterexample :
    get_alerts "FL" (fun _ => some (Json.obj [("features",
        Json.arr [Json.obj [("id", Json.str "a1")]])])) = .error "KeyError" := rfl

/-- C5 (amended): for every non-empty list of N features, each an object
carrying a `properties` object, `get_alerts` returns the N blocks joined by
"\n---\n", substituting "Unknown" for a missing `event`/`areaDesc`/
`severity`, "No description available" for a missing `description` and
"No specific instructions provided" for a missing `instruction`. -/
theorem C5_alert_blocks_amended (st : String)
    (propsList : List (List (String × Json))) (hne : propsList ≠ []) :
    get_alerts st (fun _ => some (Json.obj [("features",
        Json.arr (propsList.map (fun p => Json.obj [("properties", Json.obj p)])))])) =
      .ok (String.intercalate "\n---\n" (propsList.map (fun p =>
        "\nEvent: " ++ pyStr ((p.lookup "event").getD (.str "Unknown")) ++
        "\nArea: " ++ pyStr ((p.lookup "areaDesc").getD (.str "Unknown")) ++
        "\nSeverity: " ++ pyStr ((p.lookup "severity").getD (.str "Unknown")) ++
        "\nDescription: " ++
          pyStr ((p.lookup "description").getD (.str "No description available")) ++
        "\nInstructions: " ++
          pyStr ((p.lookup "instruction").getD (.str "No specific instructions provided")) ++
        "\n"))) := by
  have hmap := mapExcept_map (g := format_alert)
    (f := fun p : List (String × Json) => Json.obj [("properties", Json.obj p)])
    (h := fun p : List (String × Json) =>
      "\nEvent: " ++ pyStr ((p.lookup "event").getD (.str "Unknown")) ++
      "\nArea: " ++ pyStr ((p.lookup "areaDesc").getD (.str "Unknown")) ++
      "\nSeverity: " ++ pyStr ((p.lookup "severity").getD (.str "Unknown")) ++
      "\nDescription: " ++
        pyStr ((p.lookup "description").getD (.str "No description available")) ++
      "\nInstructions: " ++
        pyStr ((p.lookup "instruction").getD (.str "No specific instructions provided")) ++
      "\n")
    (l := propsList)
    (fun p _ => by simp [format_alert, getItem, List.lookup, pyGet, alertBlock])
  have hmne : propsList.map (fun p => Json.obj [("properties", Json.obj p)]) ≠ [] := by
    cases propsList with
    | nil => exact absurd rfl hne
    | cons p0 rest => exact fun hx => List.noConfusion hx
  exact alerts_of_data_features rfl hmne hmap

theorem C5_alert_blocks_witness :
    get_alerts "CA" (fun _ => some (Json.obj [("features",
        Json.arr [Json.obj [("properties", Json.obj [("event", Json.str "Flood")])]])])) =
      .ok ("\nEvent: Flood\nArea: Unknown\nSeverity: Unknown\nDescription: " ++
        "No description available\nInstructions: No specific instructions provided\n") :=
  (C5_alert_blocks_amended "CA" [[("event", Json.str "Flood")]]
    (by exact fun h => List.noConfusion h)).trans rfl

/-- C6: with no configured API key, `get_forecast` returns the fixed
instructional error string and performs zero fetch calls, for every
latitude, longitude and fetch layer. -/
theorem C6_no_key_no_fetch (fetch : String → Option Json) (t : ℚ → String) (la lo : ℚ) :
    get_forecast none fetch t la lo = (.ok noKeyMsg, 0) := rfl

/-- C7: a string `cod` different from "200" makes `get_forecast` return
"Unable to fetch forecast: " followed by the `message` value, or
"Unknown error" when no message is present. -/
theorem C7_cod_error_message (k : String) (kvs : List (String × Json)) (c : String)
    (t : ℚ → String) (la lo : ℚ)
    (hk : ¬ k = "") (hc : kvs.lookup "cod" = some (Json.str c)) (hne : ¬ c = "200") :
    get_forecast (some k) (fun _ => some (Json.obj kvs)) t la lo =
      (.ok ("Unable to fetch forecast: " ++
        pyStr ((kvs.lookup "message").getD (.str "Unknown error"))), 1) := by
  have ht := truthy_obj (lookup_ne_nil hc)
  have he : (Json.str c).eqStr "200" = false := by
    simp [Json.eqStr, hne]
  simp [get_forecast, hk, forecast_body, ht, pyContains, hc, getItem, he, pyGet]

theorem C7_cod_error_message_witness :
    get_forecast (some "APIKEY") (fun _ => some (Json.obj
        [("cod", Json.str "404"), ("message", Json.str "city not found")]))
      (fun _ => "") 0 0 =
      (.ok "Unable to fetch forecast: city not found", 1) :=
  (C7_cod_error_message "APIKEY" [("cod", Json.str "404"),
    ("message", Json.str "city not found")] "404" (fun _ => "") 0 0
    (by decide) rfl (by decide)).trans rfl

/-- C10: a `cod` equal to the integer 200 (not the string "200") also takes
the error branch: Python compares `200 != "200"` as true, so the body is
reported as an upstream error instead of being rendered. -/
theorem C10_numeric_cod_error (k : String) (kvs : List (String × Json))
    (t : ℚ → String) (la lo : ℚ)
    (hk : ¬ k = "") (hc : kvs.lookup "cod" = some (Json.num 200)) :
    get_forecast (some k) (fun _ => some (Json.obj kvs)) t la lo =
      (.ok ("Unable to fetch forecast: " ++
        pyStr ((kvs.lookup "message").getD (.str "Unknown error"))), 1) := by
  have ht := truthy_obj (lookup_ne_nil hc)
  have he : (Json.num 200).eqStr "200" = false := rfl
  simp [get_forecast, hk, forecast_body, ht, pyContains, hc, getItem, he, pyGet]

theorem C10_numeric_cod_error_witness :
    get_forecast (some "APIKEY") (fun _ => some (Json.obj
        [("cod", Json.num 200), ("message", Json.str "ok")])) (fun _ => "") 0 0 =
      (.ok "Unable to fetch forecast: ok", 1) :=
  (C10_numeric_cod_error "APIKEY" [("cod", Json.num 200), ("message", Json.str "ok")]
    (fun _ => "") 0 0 (by decide) rfl).trans rfl

/-- C8 counterexample: on the empty-object body (which has no `list` key),
`get_forecast` returns the fetch-failure message, not
"No forecast data available." as the claim demands: the body is falsy and
is treated as a failed fetch. -/
theorem C8_empty_body_counterexample :
    (get_forecast (some "APIKEY") (fun _ => some (Json.obj [])) (fun _ => "") 0 0).1 =
      .ok "Unable to fetch forecast data for this location." ∧
    ("Unable to fetch forecast data for this location." : String) ≠
      "No forecast data available." := by
  exact ⟨rfl, by decide⟩

/-- C8 (amended): for a non-empty object body passing the `cod` check
(`cod` absent or the string "200") and whose `city` is absent or an object:
if `list` is absent or the empty list the result is exactly
"No forecast data available."; if `list` has at least 5 well-formed
periods, the output is the header, the separator and exactly the first 5
rendered period blocks, joined by newlines, in input order. -/
theorem C8_five_periods_amended (k : String) (kvs ckvs : List (String × Json))
    (t : ℚ → String) (la lo : ℚ)
    (hk : ¬ k = "") (hne : kvs ≠ [])
    (hcod : kvs.lookup "cod" = none ∨ kvs.lookup "cod" = some (Json.str "200"))
    (hcity : (kvs.lookup "city").getD (Json.obj []) = Json.obj ckvs) :
    ((kvs.lookup "list" = none ∨ kvs.lookup "list" = some (Json.arr [])) →
      (get_forecast (some k) (fun _ => some (Json.obj kvs)) t la lo).1 =
        .ok "No forecast data available.") ∧
    (∀ ps : List Json, kvs.lookup "list" = some (Json.arr ps) → 5 ≤ ps.length →
      (ps.take 5).all periodOK = true →
      ∃ blocks : List String, blocks.length = 5 ∧
        mapExcept (renderPeriod t) (ps.take 5) = .ok blocks ∧
        (get_forecast (some k) (fun _ => some (Json.obj kvs)) t la lo).1 =
          .ok (String.intercalate "\n"
            (mkLocation ((ckvs.lookup "name").getD (.str "Unknown"))
                ((ckvs.lookup "country").getD (.str "")) :: sep50 :: blocks))) := by
  have ht := truthy_obj hne
  have hred : (get_forecast (some k) (fun _ => some (Json.obj kvs)) t la lo).1 =
      forecast_body t (Json.obj kvs) := by
    simp [get_forecast, hk]
  have hbody : forecast_body t (Json.obj kvs) = forecast_render t (Json.obj kvs) := by
    rcases hcod with hc | hc
    · simp [forecast_body, ht, pyContains, hc]
    · simp [forecast_body, ht, pyContains, hc, getItem, Json.eqStr]
  constructor
  · intro h
    rcases h with hl | hl
    · rw [hred, hbody]
      simp [forecast_render, pyGet, hcity, hl, Json.truthy]
    · rw [hred, hbody]
      simp [forecast_render, pyGet, hcity, hl, Json.truthy]
  · intro ps hl hlen hall
    have hmOk : (mapExcept (renderPeriod t) (ps.take 5)).isOk = true :=
      mapExcept_isOk (fun x hx => renderPeriod_isOk t (List.all_eq_true.mp hall x hx))
    rcases hme : mapExcept (renderPeriod t) (ps.take 5) with e | blocks
    · rw [hme] at hmOk
      exact Bool.noConfusion hmOk
    refine ⟨blocks, ?_, rfl, ?_⟩
    · have hlb := mapExcept_length hme
      rw [List.length_take] at hlb
      omega
    · have htp : (Json.arr ps).truthy = true := by
        cases ps with
        | nil => simp at hlen
        | cons a l => simp [Json.truthy]
      rw [hred, hbody]
      simp [forecast_render, pyGet, hcity, hl, htp, pySlice5, hme, mkLocation]

theorem C8_five_periods_witness :
    (get_forecast (some "APIKEY") (fun _ => some (Json.obj [("list", Json.arr [])]))
      (fun _ => "") 0 0).1 = .ok "No forecast data available." :=
  (C8_five_periods_amended "APIKEY" [("list", Json.arr [])] [] (fun _ => "") 0 0
    (by decide) (by exact fun h => List.noConfusion h) (Or.inl rfl) rfl).1 (Or.inr rfl)

/-- C9: both tools are deterministic: on a fixed fetched body (and a fixed
reference-zone timestamp formatter) two invocations yield identical
strings.  The embedding is a pure function of its inputs, so the two
results coincide definitionally. -/
theorem C9_deterministic (st : String) (fa : String → Option Json)
    (key : Option String) (ff : String → Option Json) (t : ℚ → String) (la lo : ℚ) :
    get_alerts st fa = get_alerts st fa ∧
    get_forecast key ff t la lo = get_forecast key ff t la lo :=
  ⟨rfl, rfl⟩

end WeatherMCP
